import Mathlib

/-!
Shallow embedding of `src/backtest_base.py` (class `BacktestBase`), an
event-based backtesting ledger.  Dates are modelled as natural numbers,
monetary values and prices as exact rationals (the spec's testable
properties are stated in exact arithmetic), unit counts as integers.

Python exceptions are modelled with `PyError`.  Because Python mutates
`self` in place and an exception raised *after* a mutation still leaves
the mutation visible to the caller, every method that can raise returns
`BacktestBase × Option PyError`: the state as it stands when the method
returns or the exception escapes, together with the escaped exception,
if any.

A faithfulness note: `place_buy_order`/`place_sell_order` divide by the
bar's price when resolving `amount` into units.  A zero price is not
modelled (rational division by zero yields 0 rather than a Python
error), so every theorem about the `amount` path assumes the price is
nonzero.
-/

/-- Python exceptions that the embedded methods can raise. -/
inductive PyError where
  | typeError
  | attributeError
  | indexError
deriving DecidableEq, Repr

/-- The attributes of a `BacktestBase` object, from `__init__`
(src/backtest_base.py lines 48-59).  `end` is a Lean keyword, hence
`end_`.  `data` holds the prepared series produced by `get_data`: one
`(date, close)` pair per bar. -/
structure BacktestBase where
  start : ℕ
  end_ : ℕ
  initial_amount : ℚ
  amount : ℚ
  ftc : ℚ
  ptc : ℚ
  units : ℤ
  position : ℤ
  trades : ℕ
  verbose : Bool
  data : List (ℕ × ℚ)
deriving DecidableEq, Repr

/-- The `raw.dropna()` step of `get_data` (line 64): rows whose close
price is missing (`NaN`) are removed.  A source row is `(date, close?)`
with `none` standing for a missing value. -/
def dropna (rows : List (ℕ × Option ℚ)) : List (ℕ × ℚ) :=
  rows.filterMap fun r => r.2.map fun p => (r.1, p)

/-- The `raw.loc[self.start:self.end]` step of `get_data` (line 66):
keep the rows whose date lies in the inclusive range. -/
def in_range (rows : List (ℕ × ℚ)) (start end_ : ℕ) : List (ℕ × ℚ) :=
  rows.filter fun r => start ≤ r.1 && r.1 ≤ end_

/-- `get_data` (src/backtest_base.py lines 61-70): read the source rows,
drop missing values, restrict to the date range, add the log-return
column and `dropna()` again.  The log-return value itself is
transcendental and never consumed by the ledger; its only effect on the
stored series is that the first in-range row, whose return is
undefined (`NaN`), is dropped by the final `dropna()`.  No branch of
the source raises on an empty range: slicing, the return column and
`dropna` all accept an empty frame silently. -/
def get_data (rows : List (ℕ × Option ℚ)) (start end_ : ℕ) : List (ℕ × ℚ) :=
  (in_range (dropna rows) start end_).drop 1

/-- `__init__` (src/backtest_base.py lines 48-59): store the
configuration, set `amount` to the initial amount, zero the holdings,
position and trade counters, and call `get_data` on the source rows. -/
def mkBacktestBase (rows : List (ℕ × Option ℚ)) (start end_ : ℕ) (amount : ℚ)
    (ftc ptc : ℚ) (verbose : Bool) : BacktestBase :=
  { start := start
    end_ := end_
    initial_amount := amount
    amount := amount
    ftc := ftc
    ptc := ptc
    units := 0
    position := 0
    trades := 0
    verbose := verbose
    data := get_data rows start end_ }

/-- `get_date_price` (src/backtest_base.py lines 79-83): return the date
and close price of the bar.  An out-of-range bar raises `IndexError`
in pandas, modelled as `none`. -/
def get_date_price (s : BacktestBase) (bar : ℕ) : Option (ℕ × ℚ) :=
  s.data.get? bar

/-- Python's `int()` conversion of a number truncates toward zero:
floor for nonnegative arguments, ceiling for negative ones. -/
def pyInt (q : ℚ) : ℤ :=
  if 0 ≤ q then ⌊q⌋ else ⌈q⌉

/-- The unit-resolution step shared by `place_buy_order` (lines 99-100)
and `place_sell_order` (lines 112-113): `if units is None: units =
int(amount / price)`.  When `amount` is also `None`, the expression
`None / price` raises `TypeError`.  When both are given, `units` wins
and `amount` is never read. -/
def resolve_units (price : ℚ) (units : Option ℤ) (amount : Option ℚ) :
    Except PyError ℤ :=
  match units with
  | some u => Except.ok u
  | none =>
    match amount with
    | some a => Except.ok (pyInt (a / price))
    | none => Except.error PyError.typeError

/-- `print_net_wealth` (src/backtest_base.py lines 90-94).  Line 92
evaluates `self.get_data_price(bar)`, but the class defines no
attribute `get_data_price` (the method defined at line 79 is
`get_date_price`), so Python raises `AttributeError` before the
net-wealth expression of line 93 runs and before anything is printed;
no attribute of `self` is assigned anywhere in the method.  (Even if
the call resolved, line 94 reads `self.net_wealth`, which is never
assigned either, so the method cannot complete.) -/
def print_net_wealth (s : BacktestBase) (bar : ℕ) : BacktestBase × Option PyError :=
  (s, some PyError.attributeError)

/-- `place_buy_order` (src/backtest_base.py lines 96-107): look up the
bar's price (IndexError when out of range), resolve the unit count,
charge `units*price*(1+ptc) + ftc` against `amount`, add the units,
count the trade.  When `verbose` is set, the method then calls
`print_balance` (which succeeds) and `print_net_wealth`, which always
raises `AttributeError` — after the mutations have happened. -/
def place_buy_order (s : BacktestBase) (bar : ℕ) (units : Option ℤ)
    (amount : Option ℚ) : BacktestBase × Option PyError :=
  match get_date_price s bar with
  | none => (s, some PyError.indexError)
  | some (_, price) =>
    match resolve_units price units amount with
    | Except.error e => (s, some e)
    | Except.ok u =>
      let s' : BacktestBase :=
        { s with amount := s.amount - ((u * price) * (1 + s.ptc) + s.ftc)
                 units := s.units + u
                 trades := s.trades + 1 }
      if s.verbose then (s', some PyError.attributeError) else (s', none)

/-- `place_sell_order` (src/backtest_base.py lines 109-120): mirror of
`place_buy_order` with the cash and unit signs reversed: credit
`units*price*(1-ptc) - ftc`, subtract the units, count the trade.
The same `verbose` path raises `AttributeError` after the mutations. -/
def place_sell_order (s : BacktestBase) (bar : ℕ) (units : Option ℤ)
    (amount : Option ℚ) : BacktestBase × Option PyError :=
  match get_date_price s bar with
  | none => (s, some PyError.indexError)
  | some (_, price) =>
    match resolve_units price units amount with
    | Except.error e => (s, some e)
    | Except.ok u =>
      let s' : BacktestBase :=
        { s with amount := s.amount + ((u * price) * (1 - s.ptc) - s.ftc)
                 units := s.units - u
                 trades := s.trades + 1 }
      if s.verbose then (s', some PyError.attributeError) else (s', none)

/-- `close_out` (src/backtest_base.py lines 122-136): credit the whole
holding at the bar's price with no transaction cost, flatten the
position, count the trade.  All its prints use attributes that exist,
so no exception is raised on a valid bar. -/
def close_out (s : BacktestBase) (bar : ℕ) : BacktestBase × Option PyError :=
  match get_date_price s bar with
  | none => (s, some PyError.indexError)
  | some (_, price) =>
    ({ s with amount := s.amount + s.units * price
              units := 0
              trades := s.trades + 1 }, none)

/-- The performance figure printed by `close_out` (lines 132-134),
computed from the post-liquidation state:
`(amount - initial_amount) / initial_amount * 100`. -/
def net_performance (s : BacktestBase) : ℚ :=
  (s.amount - s.initial_amount) / s.initial_amount * 100

/-- One order of a driving strategy: the three ledger mutations the
class exposes. -/
inductive TradeOp where
  | buy (bar : ℕ) (units : Option ℤ) (amount : Option ℚ)
  | sell (bar : ℕ) (units : Option ℤ) (amount : Option ℚ)
  | closeOut (bar : ℕ)
deriving DecidableEq, Repr

/-- Dispatch one order to the corresponding method. -/
def apply_order (s : BacktestBase) : TradeOp → BacktestBase × Option PyError
  | TradeOp.buy bar units amount => place_buy_order s bar units amount
  | TradeOp.sell bar units amount => place_sell_order s bar units amount
  | TradeOp.closeOut bar => close_out s bar

/-- Run a sequence of orders, stopping at the first escaped exception
(the spec: exceptions propagate to the top-level driver, which
terminates the run). -/
def runOrders : BacktestBase → List TradeOp → BacktestBase × Option PyError
  | s, [] => (s, none)
  | s, o :: rest =>
    match apply_order s o with
    | (s', none) => runOrders s' rest
    | (s', some e) => (s', some e)

/-! ## Helper lemmas -/

/-- On a nonnegative argument Python's `int()` agrees with the floor. -/
lemma pyInt_of_nonneg (q : ℚ) (h : 0 ≤ q) : pyInt q = ⌊q⌋ := by
  simp [pyInt, h]

/-- The state left by a buy of `u` explicit units at a valid bar,
whether or not the verbose printing then raises. -/
lemma place_buy_order_fst (s : BacktestBase) (bar d : ℕ) (p : ℚ) (u : ℤ)
    (h : get_date_price s bar = some (d, p)) :
    (place_buy_order s bar (some u) none).1
      = { s with amount := s.amount - ((u * p) * (1 + s.ptc) + s.ftc)
                 units := s.units + u
                 trades := s.trades + 1 } := by
  cases hv : s.verbose <;> simp [place_buy_order, resolve_units, h, hv]

/-- The state left by a sell of `u` explicit units at a valid bar,
whether or not the verbose printing then raises. -/
lemma place_sell_order_fst (s : BacktestBase) (bar d : ℕ) (p : ℚ) (u : ℤ)
    (h : get_date_price s bar = some (d, p)) :
    (place_sell_order s bar (some u) none).1
      = { s with amount := s.amount + ((u * p) * (1 - s.ptc) - s.ftc)
                 units := s.units - u
                 trades := s.trades + 1 } := by
  cases hv : s.verbose <;> simp [place_sell_order, resolve_units, h, hv]

/-- A successful `place_buy_order` increments the trade counter by one. -/
lemma place_buy_order_ok_trades (s s' : BacktestBase) (bar : ℕ) (units : Option ℤ)
    (amount : Option ℚ) (h : place_buy_order s bar units amount = (s', none)) :
    s'.trades = s.trades + 1 := by
  unfold place_buy_order at h
  split at h
  · simp at h
  · split at h
    · simp at h
    · split at h
      · simp at h
      · simp only [Prod.mk.injEq, and_true] at h
        subst h
        simp

/-- A successful `place_sell_order` increments the trade counter by one. -/
lemma place_sell_order_ok_trades (s s' : BacktestBase) (bar : ℕ) (units : Option ℤ)
    (amount : Option ℚ) (h : place_sell_order s bar units amount = (s', none)) :
    s'.trades = s.trades + 1 := by
  unfold place_sell_order at h
  split at h
  · simp at h
  · split at h
    · simp at h
    · split at h
      · simp at h
      · simp only [Prod.mk.injEq, and_true] at h
        subst h
        simp

/-- A successful `close_out` increments the trade counter by one. -/
lemma close_out_ok_trades (s s' : BacktestBase) (bar : ℕ)
    (h : close_out s bar = (s', none)) : s'.trades = s.trades + 1 := by
  unfold close_out at h
  split at h
  · simp at h
  · simp only [Prod.mk.injEq, and_true] at h
    subst h
    simp

/-- A successfully applied order increments the trade counter by one. -/
lemma apply_order_ok_trades (s s' : BacktestBase) (o : TradeOp)
    (h : apply_order s o = (s', none)) : s'.trades = s.trades + 1 := by
  cases o with
  | buy bar units amount => exact place_buy_order_ok_trades s s' bar units amount h
  | sell bar units amount => exact place_sell_order_ok_trades s s' bar units amount h
  | closeOut bar => exact close_out_ok_trades s s' bar h

/-- A run of orders that raises no exception adds one trade per order. -/
lemma runOrders_ok_trades (ops : List TradeOp) : ∀ (s s' : BacktestBase),
    runOrders s ops = (s', none) → s'.trades = s.trades + ops.length := by
  induction ops with
  | nil =>
    intro s s' h
    unfold runOrders at h
    simp only [Prod.mk.injEq, and_true] at h
    subst h
    simp
  | cons o rest ih =>
    intro s s' h
    unfold runOrders at h
    rcases ha : apply_order s o with ⟨s1, e⟩
    rw [ha] at h
    cases e with
    | none =>
      simp only [] at h
      have h1 := ih s1 s' h
      have h2 := apply_order_ok_trades s s1 o ha
      simp only [List.length_cons]
      omega
    | some e => simp at h

/-! ## Claim C1 -/

/-- C1: the net-wealth operation never returns a value at all: every
call to `print_net_wealth` raises `AttributeError` (the body calls the
nonexistent attribute `get_data_price` and reads the never-assigned
attribute `net_wealth`), leaving the ledger state unchanged.  The
intended value `units * price + cash` is computed into a local variable
on line 93 but is unreachable. -/
theorem print_net_wealth_always_raises (s : BacktestBase) (bar : ℕ) :
    print_net_wealth s bar = (s, some PyError.attributeError) := rfl

/-! ## Claim C2 -/

/-- Ledger used for the C2 counterexample: fresh, no costs, one bar
priced 100. -/
def CE2 : BacktestBase :=
  mkBacktestBase [(0, some 90), (1, some 100)] 0 1 10000 0 0 false

/-- C2 counterexample: buying with `amount = -150` at price 100
resolves to `int(-1.5) = -1` units (Python truncates toward zero), not
`floor(-1.5) = -2`, so `units_held` does not increase by
`floor(amount / price)` as the claim states. -/
theorem buy_units_floor_counterexample :
    (place_buy_order CE2 0 none (some (-150))).1.units
        ≠ CE2.units + ⌊((-150 : ℚ) / 100)⌋
    ∧ (place_buy_order CE2 0 none (some (-150))).1.units = -1 := by
  have h1 : (place_buy_order CE2 0 none (some (-150))).1.units = -1 := by
    norm_num [CE2, mkBacktestBase, get_data, dropna, in_range, place_buy_order,
      get_date_price, resolve_units, List.get?, pyInt, Int.ceil_neg]
  have h2 : CE2.units + ⌊((-150 : ℚ) / 100)⌋ = -2 := by
    norm_num [CE2, mkBacktestBase]
  exact ⟨by rw [h1, h2]; decide, h1⟩

/-- C2 (amended): for every buy at a valid bar with nonzero price, the
resolved unit count is Python's toward-zero truncation of
`amount / price` (which agrees with the floor whenever the quotient is
nonnegative); cash then decreases by `units*price*(1+ptc) + ftc`,
`units_held` increases by the resolved units, and `trades` increases by
exactly one — whether the units were given directly or via `amount`. -/
theorem buy_order_updates_ledger (s : BacktestBase) (bar d : ℕ) (p a : ℚ) (u : ℤ)
    (h : get_date_price s bar = some (d, p)) (hp : p ≠ 0) :
    ((place_buy_order s bar (some u) none).1.amount
        = s.amount - ((u * p) * (1 + s.ptc) + s.ftc)
      ∧ (place_buy_order s bar (some u) none).1.units = s.units + u
      ∧ (place_buy_order s bar (some u) none).1.trades = s.trades + 1)
    ∧ ((place_buy_order s bar none (some a)).1.amount
        = s.amount - ((pyInt (a / p) * p) * (1 + s.ptc) + s.ftc)
      ∧ (place_buy_order s bar none (some a)).1.units = s.units + pyInt (a / p)
      ∧ (place_buy_order s bar none (some a)).1.trades = s.trades + 1)
    ∧ (0 ≤ a / p → pyInt (a / p) = ⌊a / p⌋) := by
  refine ⟨?_, ?_, fun hq => pyInt_of_nonneg _ hq⟩ <;>
    cases hv : s.verbose <;>
      simp [place_buy_order, resolve_units, h, hv]

/-- Ledger used for the C2 witness: one bar priced 100, `ftc = 2`,
`ptc = 1/100`. -/
def W2 : BacktestBase :=
  mkBacktestBase [(0, some 90), (1, some 100)] 0 1 10000 2 (1/100) false

/-- Witness for `buy_order_updates_ledger` at `W2`, bar 0 (price 100),
3 explicit units and `amount = 250`. -/
theorem buy_order_updates_ledger_witness :
    get_date_price W2 0 = some (1, 100) ∧ (100 : ℚ) ≠ 0
    ∧ (place_buy_order W2 0 (some 3) none).1.units = W2.units + 3
    ∧ (place_buy_order W2 0 (some 3) none).1.trades = W2.trades + 1
    ∧ (place_buy_order W2 0 none (some 250)).1.units = W2.units + pyInt ((250 : ℚ) / 100) := by
  have H := buy_order_updates_ledger W2 0 1 100 250 3 rfl (by norm_num)
  exact ⟨rfl, by norm_num, H.1.2.1, H.1.2.2, H.2.1.2.1⟩

/-! ## Claim C3 -/

/-- Ledger used for the C3 counterexample: fresh, no costs, one bar
priced 100. -/
def CE3 : BacktestBase :=
  mkBacktestBase [(0, some 90), (1, some 100)] 0 1 10000 0 0 false

/-- C3 counterexample: selling with `amount = -150` at price 100
resolves to `int(-1.5) = -1` units, not `floor(-1.5) = -2`, so
`units_held` does not decrease by `floor(amount / price)` as the claim
states. -/
theorem sell_units_floor_counterexample :
    (place_sell_order CE3 0 none (some (-150))).1.units
        ≠ CE3.units - ⌊((-150 : ℚ) / 100)⌋
    ∧ (place_sell_order CE3 0 none (some (-150))).1.units = 1 := by
  have h1 : (place_sell_order CE3 0 none (some (-150))).1.units = 1 := by
    norm_num [CE3, mkBacktestBase, get_data, dropna, in_range, place_sell_order,
      get_date_price, resolve_units, List.get?, pyInt, Int.ceil_neg]
  have h2 : CE3.units - ⌊((-150 : ℚ) / 100)⌋ = 2 := by
    norm_num [CE3, mkBacktestBase]
  exact ⟨by rw [h1, h2]; decide, h1⟩

/-- C3 (amended): for every sell at a valid bar with nonzero price, the
resolved unit count is Python's toward-zero truncation of
`amount / price` (the floor whenever the quotient is nonnegative); cash
then increases by `units*price*(1-ptc) - ftc`, `units_held` decreases
by the resolved units, and `trades` increases by exactly one. -/
theorem sell_order_updates_ledger (s : BacktestBase) (bar d : ℕ) (p a : ℚ) (u : ℤ)
    (h : get_date_price s bar = some (d, p)) (hp : p ≠ 0) :
    ((place_sell_order s bar (some u) none).1.amount
        = s.amount + ((u * p) * (1 - s.ptc) - s.ftc)
      ∧ (place_sell_order s bar (some u) none).1.units = s.units - u
      ∧ (place_sell_order s bar (some u) none).1.trades = s.trades + 1)
    ∧ ((place_sell_order s bar none (some a)).1.amount
        = s.amount + ((pyInt (a / p) * p) * (1 - s.ptc) - s.ftc)
      ∧ (place_sell_order s bar none (some a)).1.units = s.units - pyInt (a / p)
      ∧ (place_sell_order s bar none (some a)).1.trades = s.trades + 1)
    ∧ (0 ≤ a / p → pyInt (a / p) = ⌊a / p⌋) := by
  refine ⟨?_, ?_, fun hq => pyInt_of_nonneg _ hq⟩ <;>
    cases hv : s.verbose <;>
      simp [place_sell_order, resolve_units, h, hv]

/-- Ledger used for the C3 witness. -/
def W3 : BacktestBase :=
  mkBacktestBase [(0, some 90), (1, some 100)] 0 1 10000 2 (1/100) true

/-- Witness for `sell_order_updates_ledger` at `W3`, bar 0 (price 100),
3 explicit units and `amount = 250`. -/
theorem sell_order_updates_ledger_witness :
    get_date_price W3 0 = some (1, 100) ∧ (100 : ℚ) ≠ 0
    ∧ (place_sell_order W3 0 (some 3) none).1.units = W3.units - 3
    ∧ (place_sell_order W3 0 (some 3) none).1.trades = W3.trades + 1
    ∧ (place_sell_order W3 0 none (some 250)).1.units = W3.units - pyInt ((250 : ℚ) / 100) := by
  have H := sell_order_updates_ledger W3 0 1 100 250 3 rfl (by norm_num)
  exact ⟨rfl, by norm_num, H.1.2.1, H.1.2.2, H.2.1.2.1⟩

/-! ## Claim C4 -/

/-- C4: `close_out` at a valid bar raises nothing and applies no
transaction cost: cash grows by exactly `units_held * price`, the
position is flattened, the trade counter is incremented, and the
performance printed from the resulting state equals
`(cash - initial_cash) / initial_cash * 100`. -/
theorem close_out_liquidates_without_cost (s : BacktestBase) (bar d : ℕ) (p : ℚ)
    (h : get_date_price s bar = some (d, p)) :
    close_out s bar
      = ({ s with amount := s.amount + s.units * p
                  units := 0
                  trades := s.trades + 1 }, none)
    ∧ net_performance (close_out s bar).1
      = (s.amount + s.units * p - s.initial_amount) / s.initial_amount * 100 := by
  constructor
  · simp [close_out, h]
  · simp [close_out, h, net_performance]

/-- Ledger used for the C4 witness: a long position of 5 units, one bar
priced 100. -/
def W4 : BacktestBase :=
  { start := 0, end_ := 1, initial_amount := 800, amount := 500, ftc := 3,
    ptc := 1/50, units := 5, position := 0, trades := 1, verbose := true,
    data := [(7, 100)] }

/-- Witness for `close_out_liquidates_without_cost` at `W4`, bar 0. -/
theorem close_out_liquidates_without_cost_witness :
    get_date_price W4 0 = some (7, 100)
    ∧ close_out W4 0
        = ({ W4 with amount := W4.amount + W4.units * 100
                     units := 0
                     trades := W4.trades + 1 }, none)
    ∧ net_performance (close_out W4 0).1
        = (W4.amount + W4.units * 100 - W4.initial_amount) / W4.initial_amount * 100 := by
  have H := close_out_liquidates_without_cost W4 0 7 100 rfl
  exact ⟨rfl, H.1, H.2⟩

/-! ## Claim C5 -/

/-- Ledger of the spec's worked example: initial cash 10000,
`fixed_cost = 1`, `proportional_cost = 1/100`, bars priced 100 then
110. -/
def S5 : BacktestBase :=
  mkBacktestBase [(0, some 90), (1, some 100), (2, some 110)] 0 2 10000 1 (1/100) false

/-- C5 counterexample: in the spec's worked example the post-buy cash
is `10000 - (10*100*1.01 + 1) = 8989`, not the claimed `8888`. -/
theorem worked_example_counterexample :
    (place_buy_order S5 0 (some 10) none).1.amount ≠ 8888
    ∧ (place_buy_order S5 0 (some 10) none).1.amount = 8989 := by
  have h : (place_buy_order S5 0 (some 10) none).1.amount = 8989 := by
    norm_num [S5, mkBacktestBase, get_data, dropna, in_range, place_buy_order,
      get_date_price, resolve_units, List.get?]
  exact ⟨by rw [h]; norm_num, h⟩

/-- C5 (amended): buying 10 units at price 100 from initial cash 10000
with `fixed_cost = 1` and `proportional_cost = 0.01` yields cash
`8989.0` and `units_held = 10`; a subsequent `close_out` at price 110
yields cash `8989 + 1100 = 10089.0` and a performance of `0.89` percent
(exact arithmetic). -/
theorem worked_example_exact_values :
    (place_buy_order S5 0 (some 10) none).1.amount = 8989
    ∧ (place_buy_order S5 0 (some 10) none).1.units = 10
    ∧ (close_out (place_buy_order S5 0 (some 10) none).1 1).2 = none
    ∧ (close_out (place_buy_order S5 0 (some 10) none).1 1).1.amount = 10089
    ∧ net_performance (close_out (place_buy_order S5 0 (some 10) none).1 1).1 = 89 / 100 := by
  norm_num [S5, mkBacktestBase, get_data, dropna, in_range, place_buy_order, close_out,
    net_performance, get_date_price, resolve_units, List.get?]

/-! ## Claim C6 -/

/-- C6 (amended): there is no `InvalidOrderError` in the code.  When
neither `units` nor `amount` is supplied, buy and sell raise a
`TypeError` (from `None / price`) before any mutation, leaving the
ledger unchanged; when both are supplied, no validation error occurs:
`units` silently takes precedence and `amount` is ignored. -/
theorem order_argument_validation (s : BacktestBase) (bar d : ℕ) (p : ℚ)
    (h : get_date_price s bar = some (d, p)) :
    place_buy_order s bar none none = (s, some PyError.typeError)
    ∧ place_sell_order s bar none none = (s, some PyError.typeError)
    ∧ (∀ (u : ℤ) (a : ℚ),
        place_buy_order s bar (some u) (some a) = place_buy_order s bar (some u) none)
    ∧ (∀ (u : ℤ) (a : ℚ),
        place_sell_order s bar (some u) (some a) = place_sell_order s bar (some u) none) := by
  refine ⟨?_, ?_, fun u a => ?_, fun u a => ?_⟩ <;>
    simp [place_buy_order, place_sell_order, resolve_units, h]

/-- Ledger used for the C6 counterexample and witness: one bar priced
100. -/
def S6 : BacktestBase :=
  mkBacktestBase [(0, some 90), (1, some 100)] 0 1 1000 0 0 false

/-- C6 counterexample: a buy with *both* `units` and `amount` supplied
raises no error at all (the claim demands an `InvalidOrderError`). -/
theorem invalid_order_counterexample :
    (place_buy_order S6 0 (some 5) (some 500)).2 = none := rfl

/-- Witness for `order_argument_validation` at `S6`, bar 0. -/
theorem order_argument_validation_witness :
    get_date_price S6 0 = some (1, 100)
    ∧ place_buy_order S6 0 none none = (S6, some PyError.typeError)
    ∧ place_sell_order S6 0 none none = (S6, some PyError.typeError)
    ∧ place_buy_order S6 0 (some 5) (some 500) = place_buy_order S6 0 (some 5) none := by
  have H := order_argument_validation S6 0 1 100 rfl
  exact ⟨rfl, H.1, H.2.1, H.2.2.1 5 500⟩

/-! ## Claim C7 -/

/-- C7 (amended): loading never fails on an empty range — when zero
rows fall in `[start, end]` the prepared series is simply empty — and
the prepared series is non-empty exactly when at least two non-missing
rows fall in the range (the first in-range row is dropped together with
its undefined log-return). -/
theorem load_range_result (rows : List (ℕ × Option ℚ)) (st en : ℕ) :
    (in_range (dropna rows) st en = [] → get_data rows st en = [])
    ∧ (get_data rows st en ≠ [] ↔ 2 ≤ (in_range (dropna rows) st en).length) := by
  constructor
  · intro h
    simp [get_data, h]
  · rw [get_data, ← List.length_pos, List.length_drop]
    omega

/-- C7 counterexample: a range containing exactly one source row
produces an *empty* series (and no error), contradicting the claim
that a range with matching rows returns a non-empty series and that an
empty match "fails". -/
theorem empty_range_counterexample :
    in_range (dropna [(5, some 10)]) 1 10 = [(5, 10)]
    ∧ get_data [(5, some 10)] 1 10 = [] := ⟨rfl, rfl⟩

/-- Witness for `load_range_result`: a single out-of-range row. -/
theorem load_range_result_witness :
    in_range (dropna [(3, some (5 : ℚ))]) 10 20 = []
    ∧ get_data [(3, some (5 : ℚ))] 10 20 = [] :=
  ⟨rfl, (load_range_result [(3, some (5 : ℚ))] 10 20).1 rfl⟩

/-! ## Claim C8 -/

/-- C8: any sequence of buy/sell/close-out orders that runs to
completion on a freshly created ledger (no exception escapes) leaves
`trades` equal to the number of orders: each applied order increments
the counter by exactly one. -/
theorem trades_equals_sequence_length (rows : List (ℕ × Option ℚ)) (st en : ℕ)
    (a f pt : ℚ) (v : Bool) (ops : List TradeOp) (s' : BacktestBase)
    (h : runOrders (mkBacktestBase rows st en a f pt v) ops = (s', none)) :
    s'.trades = ops.length := by
  have h1 := runOrders_ok_trades ops (mkBacktestBase rows st en a f pt v) s' h
  simpa [mkBacktestBase] using h1

/-- Fresh ledger used for the C8 witness: one bar priced 100, no
costs, quiet mode. -/
def W8 : BacktestBase :=
  mkBacktestBase [(0, some 50), (1, some 100)] 0 1 1000 0 0 false

/-- Order sequence used for the C8 witness. -/
def OPS8 : List TradeOp :=
  [TradeOp.buy 0 (some 2) none, TradeOp.sell 0 (some 1) none, TradeOp.closeOut 0]

/-- Witness for `trades_equals_sequence_length`: running `OPS8` on `W8`
raises nothing and ends with three trades. -/
theorem trades_equals_sequence_length_witness :
    (runOrders W8 OPS8).2 = none ∧ (runOrders W8 OPS8).1.trades = 3 :=
  ⟨rfl, trades_equals_sequence_length [(0, some 50), (1, some 100)] 0 1 1000 0 0 false
    OPS8 (runOrders W8 OPS8).1 rfl⟩

/-! ## Claim C9 -/

/-- C9: with zero fixed and proportional costs, buying `u` units and
immediately selling `u` units at the same bar restores both the cash
balance and the unit holding to their pre-trade values. -/
theorem zero_cost_round_trip (s : BacktestBase) (bar d : ℕ) (p : ℚ) (u : ℤ)
    (hf : s.ftc = 0) (hp : s.ptc = 0) (h : get_date_price s bar = some (d, p)) :
    (place_sell_order (place_buy_order s bar (some u) none).1 bar (some u) none).1.amount
      = s.amount
    ∧ (place_sell_order (place_buy_order s bar (some u) none).1 bar (some u) none).1.units
      = s.units := by
  rw [place_buy_order_fst s bar d p u h]
  rw [place_sell_order_fst
    { s with amount := s.amount - ((u * p) * (1 + s.ptc) + s.ftc)
             units := s.units + u
             trades := s.trades + 1 } bar d p u h]
  refine ⟨?_, ?_⟩ <;> simp [hf, hp]

/-- Ledger used for the C9 witness: zero costs, 2 units held, one bar
priced 50. -/
def W9 : BacktestBase :=
  { start := 0, end_ := 5, initial_amount := 1000, amount := 700, ftc := 0,
    ptc := 0, units := 2, position := 0, trades := 4, verbose := true,
    data := [(3, 50)] }

/-- Witness for `zero_cost_round_trip` at `W9`, bar 0, 6 units. -/
theorem zero_cost_round_trip_witness :
    W9.ftc = 0 ∧ W9.ptc = 0 ∧ get_date_price W9 0 = some (3, 50)
    ∧ (place_sell_order (place_buy_order W9 0 (some 6) none).1 0 (some 6) none).1.amount
        = W9.amount
    ∧ (place_sell_order (place_buy_order W9 0 (some 6) none).1 0 (some 6) none).1.units
        = W9.units := by
  have H := zero_cost_round_trip W9 0 3 50 6 rfl rfl rfl
  exact ⟨rfl, rfl, rfl, H.1, H.2⟩

/-! ## Claim C10 -/

/-- Two ledger states agree on every field other than `amount`,
`units` and `trades`: the configuration and provenance fields
(`start`, `end`, `initial_amount`, `ftc`, `ptc`), the unused
`position`, the `verbose` flag and the prepared data. -/
def same_config (r s : BacktestBase) : Prop :=
  r.start = s.start ∧ r.end_ = s.end_ ∧ r.initial_amount = s.initial_amount
  ∧ r.ftc = s.ftc ∧ r.ptc = s.ptc ∧ r.position = s.position
  ∧ r.verbose = s.verbose ∧ r.data = s.data

/-- C10: buy, sell and close-out — whatever their arguments and
whether or not they raise — leave every field other than `amount`
(cash), `units` and `trades` unchanged. -/
theorem orders_preserve_config (s : BacktestBase) (bar : ℕ) (units : Option ℤ)
    (amount : Option ℚ) :
    same_config (place_buy_order s bar units amount).1 s
    ∧ same_config (place_sell_order s bar units amount).1 s
    ∧ same_config (close_out s bar).1 s := by
  refine ⟨?_, ?_, ?_⟩
  · rcases hg : get_date_price s bar with _ | ⟨d, p⟩
    · simp [same_config, place_buy_order, hg]
    · rcases hr : resolve_units p units amount with e | u <;>
        cases hv : s.verbose <;>
          simp [same_config, place_buy_order, hg, hr, hv]
  · rcases hg : get_date_price s bar with _ | ⟨d, p⟩
    · simp [same_config, place_sell_order, hg]
    · rcases hr : resolve_units p units amount with e | u <;>
        cases hv : s.verbose <;>
          simp [same_config, place_sell_order, hg, hr, hv]
  · rcases hg : get_date_price s bar with _ | ⟨d, p⟩ <;>
      simp [same_config, close_out, hg]
